import Mathlib

/-!
Shallow embedding of the sqip appointment-scheduling core.

Times of day are embedded as minutes since midnight (a `datetime` produced by
`strptime(_, "%H:%M")` compares and adds exactly like its minute count, and
`strftime("%H:%M")` is `time_to_str` below).  Absolute instants (for overlap
queries) are embedded as `Int` minutes on a global timeline; timezone
localization attaches information without shifting the compared values, so it
is dropped.  Database rows are lists of records, Django `save()` is a map over
the list replacing the row with the same primary key, `QuerySet.update` with an
`F`-expression is a map over the filtered rows, and a Python `AttributeError`
crash on a `None` lookup is modelled by an `Option.none` result.
-/

namespace Sqip

/-! Slot generation, from `main/appointments/utils.py` (`generate_time_slots`). -/

/-- Lexicographic order on break ranges; Python `sorted` on pairs of datetimes. -/
def break_le (a b : Nat × Nat) : Bool :=
  decide (a.1 < b.1) || (a.1 == b.1 && decide (a.2 ≤ b.2))

/-- Step 3 of `generate_time_slots`, as a structurally recursive loop: the
fuel only bounds the number of iterations (each iteration advances the cursor
by at least one minute, so `block_end - block_start` iterations always
suffice); the `0 < interval` guard rules out exactly the `interval = 0` input
on which the Python loop never terminates. -/
def tile_loop : Nat → Nat → Nat → Nat → List (Nat × Nat)
  | 0, _, _, _ => []
  | fuel + 1, current, block_end, interval =>
      if 0 < interval ∧ current + interval ≤ block_end then
        (current, current + interval) :: tile_loop fuel (current + interval) block_end interval
      else
        []

/-- Tiling of one usable block with fixed-length slots; a remainder shorter
than the interval is discarded. -/
def tile_block (block_start block_end interval : Nat) : List (Nat × Nat) :=
  tile_loop (block_end - block_start) block_start block_end interval

/-- Stable insertion sort on break ranges; Python `sorted` on pairs of
datetimes is a stable sort under the same lexicographic order. -/
def insert_break (x : Nat × Nat) : List (Nat × Nat) → List (Nat × Nat)
  | [] => [x]
  | y :: rest => if break_le x y then x :: y :: rest else y :: insert_break x rest

def sort_breaks : List (Nat × Nat) → List (Nat × Nat)
  | [] => []
  | x :: rest => insert_break x (sort_breaks rest)

/-- Step 2 of `generate_time_slots`: the loop over the sorted break ranges that
accumulates usable blocks, starting from cursor `current`. -/
def usable_blocks_loop (opening_end : Nat) : Nat → List (Nat × Nat) → List (Nat × Nat)
  | current, [] => if current < opening_end then [(current, opening_end)] else []
  | current, (break_start, break_end) :: rest =>
      (if current < break_start then [(current, break_start)] else []) ++
        usable_blocks_loop opening_end (max current break_end) rest

/-- Concatenation of the per-block slot lists, in block order. -/
def slots_of_blocks (blocks : List (Nat × Nat)) (interval : Nat) : List (Nat × Nat) :=
  blocks.foldr (fun b acc => tile_block b.1 b.2 interval ++ acc) []

/-- Minute-level core of `generate_time_slots`.  The source reads
`opening_hours[0]`, which raises `IndexError` on an empty list: that crash is
the `none` result. -/
def generate_time_slots_minutes (opening_hours break_hours : List (Nat × Nat))
    (interval_minutes : Nat) : Option (List (Nat × Nat)) :=
  match opening_hours with
  | [] => none
  | (opening_start, opening_end) :: _ =>
      let break_ranges := sort_breaks break_hours
      let usable_blocks := usable_blocks_loop opening_end opening_start break_ranges
      some (slots_of_blocks usable_blocks interval_minutes)

/-- Rendering of a minute count as `"HH:MM"` (`strftime("%H:%M")`). -/
def two_digits (n : Nat) : String :=
  if n < 10 then "0" ++ toString n else toString n

def time_to_str (time_obj : Nat) : String :=
  two_digits (time_obj / 60) ++ ":" ++ two_digits (time_obj % 60)

/-- Decimal digits to a number, for the parser below. -/
def digits_to_nat (cs : List Char) : Nat :=
  cs.foldl (fun n c => 10 * n + (c.toNat - 48)) 0

/-- Split a character list at the first colon. -/
def split_colon : List Char → List Char × List Char
  | [] => ([], [])
  | c :: rest =>
      if c = ':' then ([], rest)
      else
        let p := split_colon rest
        (c :: p.1, p.2)

/-- Parsing of `"HH:MM"` (`strptime(_, "%H:%M")`) to a minute count. -/
def str_to_time (time_str : String) : Nat :=
  let p := split_colon time_str.toList
  60 * digits_to_nat p.1 + digits_to_nat p.2

/-- String-level `generate_time_slots`, as exposed by the source. -/
def generate_time_slots (opening_hours break_hours : List (String × String))
    (interval_minutes : Nat) : Option (List (String × String)) :=
  (generate_time_slots_minutes
      (opening_hours.map fun r => (str_to_time r.1, str_to_time r.2))
      (break_hours.map fun r => (str_to_time r.1, str_to_time r.2))
      interval_minutes).map
    (List.map fun s => (time_to_str s.1, time_to_str s.2))

/-! Time-window membership, from `main/appointments/service.py`
(`is_within_opening_hours`).  The per-range anchors are built on the same
calendar date as the instant, so the comparisons reduce to minute-of-day
comparisons; `pytz` localization attaches a zone without shifting them. -/

def is_within_ranges (time : Nat) (ranges : List (Nat × Nat)) : Bool :=
  ranges.any fun time_range => decide (time_range.1 ≤ time) && decide (time < time_range.2)

def is_within_opening_hours (scheduled_time : Nat)
    (opening_hours break_hours : List (Nat × Nat)) : Bool :=
  is_within_ranges scheduled_time opening_hours &&
    !(is_within_ranges scheduled_time break_hours)

/-! Data model, from `main/models.py`. -/

/-- One `Appointment` row.  `counter` is an `IntegerField`; instants are `Int`
minutes on a global timeline; `none` in the scheduled columns is SQL `NULL`. -/
structure Appt where
  id : Nat
  organization : Nat
  category : Nat
  user : Nat
  status : String
  counter : Int
  is_scheduled : Bool
  scheduled_time : Option Int
  scheduled_end_time : Option Int
  updated_by : Option Nat
deriving DecidableEq, Repr

abbrev DB := List Appt

def STATUS_CHOICES : List String := ["active", "inactive", "checkin", "cancel"]

/-- External collaborators (organization/category tables) assumed by the
appointment service layer: activity checks never mutated by these operations. -/
structure Env where
  organization_active : Nat → Bool
  category_active : Nat → Nat → Bool

/-! Service layer, from `main/service.py`. -/

/-- The filter shared by the counter queries: the active + unscheduled
partition of one (organization, category). -/
def partition_filter (organization category : Nat) (a : Appt) : Bool :=
  a.organization == organization && a.category == category &&
    a.status == "active" && !a.is_scheduled

/-- Row lookup by primary key (`Appointment.objects.get`); `DoesNotExist`
is `none`. -/
def get_appointment_by_id (appointment_id : Nat) (status : String)
    (ignore_status : Bool) (db : DB) : Option Appt :=
  if ignore_status then
    db.find? fun a => a.id == appointment_id
  else
    db.find? fun a => a.id == appointment_id && a.status == status

/-- Django `save()`: replace the row with the same primary key. -/
def save (appt : Appt) (db : DB) : DB :=
  db.map fun a => if a.id = appt.id then appt else a

def check_duplicate_appointment (user organization category : Nat) (db : DB) : Bool :=
  db.any fun a =>
    a.organization == organization && a.category == category &&
      a.user == user && a.status == "active"

/-- Aggregate `Max("counter")` then `x + 1 if x else 1`: Python truthiness also
maps a max of `0` to `1`. -/
def get_last_counter_for_appointment (organization category : Nat) (db : DB) : Int :=
  match ((db.filter (partition_filter organization category)).map (·.counter)).max? with
  | none => 1
  | some m => if m = 0 then 1 else m + 1

/-- Aggregate `Min("counter")`, returning `min - 1`, or `0` when the partition
is empty. -/
def get_first_counter_for_appointment (organization category : Nat) (db : DB) : Int :=
  match ((db.filter (partition_filter organization category)).map (·.counter)).min? with
  | none => 0
  | some m => m - 1

/-- The row filter of `adjust_appointment_counter`. -/
def adjust_filter (appointment : Appt) (reference_counter : Int)
    (counter_limit : Option Int) (a : Appt) : Bool :=
  a.organization == appointment.organization && a.category == appointment.category &&
    a.status == "active" && decide (reference_counter < a.counter) && !a.is_scheduled &&
    (match counter_limit with
     | none => true
     | some l => decide (a.counter < l))

/-- `adjust_appointment_counter`: atomic `UPDATE counter = counter ± 1` over
the filtered rows. -/
def adjust_appointment_counter (appointment : Appt) (increment : Bool)
    (reference_counter : Int) (counter_limit : Option Int) (db : DB) : DB :=
  db.map fun a =>
    if adjust_filter appointment reference_counter counter_limit a then
      { a with counter := a.counter + (if increment then 1 else -1) }
    else
      a

/-- `set_appointment_status_and_update_counter`: returns the database after the
transaction plus the `(success, message)` pair. -/
def set_appointment_status_and_update_counter (appointment_id : Nat) (status : String)
    (user : Nat) (ignore_status : Bool) (db : DB) : DB × Bool × String :=
  if status ∉ STATUS_CHOICES then
    (db, false, "Invalid status choice.")
  else
    match get_appointment_by_id appointment_id "active" ignore_status db with
    | none => (db, false, "Appointment does not exist.")
    | some appointment =>
        let updated := { appointment with status := status, updated_by := some user }
        let db1 := save updated db
        let db2 :=
          if status ≠ "active" then
            adjust_appointment_counter updated false updated.counter none db1
          else
            db1
        (db2, true, "Appointment status updated to " ++ status ++ " successfully.")

/-- Overlap check of `is_slot_available`: strict open-interval overlap against
every active appointment of the category; rows with `NULL` scheduled columns
never match the comparison filters. -/
def is_slot_available (category : Nat) (time_interval_per_appointment : Int)
    (scheduled_time : Int) (db : DB) : Bool :=
  let end_time := scheduled_time + time_interval_per_appointment
  !(db.any fun a =>
      a.category == category && a.status == "active" &&
        (a.scheduled_time.elim false fun st => decide (st < end_time)) &&
        (a.scheduled_end_time.elim false fun en => decide (scheduled_time < en)))

/-! Appointment service, from `main/appointments/service.py`. -/

/-- `handle_appointment_scheduling`: `(counter, error message)`. -/
def handle_appointment_scheduling (env : Env) (organization category user : Nat)
    (db : DB) : Option Int × Option String :=
  if !env.organization_active organization then
    (none, some "Organization does not exist or is not accepting appointments.")
  else if !env.category_active category organization then
    (none, some "Category does not exist or is not accepting appointments.")
  else if check_duplicate_appointment user organization category db then
    (none, some "Appointment already exists.")
  else
    (some (get_last_counter_for_appointment organization category db), none)

/-- The unscheduled-create path of the `unschedule` view: on success the new
row is persisted `active`, unscheduled, with the computed counter; on failure
the database is unchanged. -/
def create_unscheduled_appointment (env : Env) (organization category user new_id : Nat)
    (db : DB) : DB :=
  match handle_appointment_scheduling env organization category user db with
  | (some counter, _) =>
      db ++ [{ id := new_id, organization := organization, category := category,
               user := user, status := "active", counter := counter,
               is_scheduled := false, scheduled_time := none,
               scheduled_end_time := none, updated_by := none }]
  | (none, _) => db

/-- `move_appointment`.  A `none` result is the `AttributeError` raised when a
lookup returned `None`; `transaction.atomic` then rolls everything back. -/
def move_appointment (current_appointment_id : Nat)
    (previous_appointment_id : Option Nat) (db : DB) : Option DB :=
  match get_appointment_by_id current_appointment_id "active" false db with
  | none => none
  | some current_appointment =>
      let previous_appointment :=
        match previous_appointment_id with
        | none => none
        | some pid => get_appointment_by_id pid "active" false db
      let current_inactive := { current_appointment with status := "inactive" }
      let db1 := save current_inactive db
      match previous_appointment_id with
      | none =>
          let first_counter :=
            get_first_counter_for_appointment current_appointment.organization
              current_appointment.category db1
          let db2 := adjust_appointment_counter current_inactive true first_counter
            (some current_appointment.counter) db1
          let current2 := { current_inactive with counter := first_counter + 1, status := "active" }
          some (save current2 db2)
      | some _ =>
          match previous_appointment with
          | none => none
          | some previous_appointment =>
              if current_appointment.counter < previous_appointment.counter then
                let db2 := adjust_appointment_counter current_inactive false
                  current_appointment.counter (some (previous_appointment.counter + 1)) db1
                match db2.find? fun a => a.id == previous_appointment.id with
                | none => none
                | some prev2 =>
                    let current2 := { current_inactive with counter := prev2.counter + 1, status := "active" }
                    some (save current2 db2)
              else if previous_appointment.counter < current_appointment.counter then
                let db2 := adjust_appointment_counter current_inactive true
                  previous_appointment.counter (some current_appointment.counter) db1
                match db2.find? fun a => a.id == previous_appointment.id with
                | none => none
                | some prev2 =>
                    let current2 := { current_inactive with counter := prev2.counter + 1, status := "active" }
                    some (save current2 db2)
              else
                some (save { current_inactive with status := "active" } db1)

/-- `activate_appointment`; `none` is the `AttributeError` on a missing row. -/
def activate_appointment (env : Env) (appointment_id : Nat) (db : DB) :
    Option (DB × Bool × String) :=
  match get_appointment_by_id appointment_id "active" true db with
  | none => none
  | some appointment =>
      if appointment.status = "active" ∨ appointment.is_scheduled then
        some (db, false, "Invalid Appointment: Already active or scheduled.")
      else
        match handle_appointment_scheduling env appointment.organization
            appointment.category appointment.user db with
        | (_, some error_message) =>
            some (db, false, "Scheduling Error: " ++ error_message)
        | (some counter, none) =>
            some (save { appointment with counter := counter, status := "active" } db,
              true, "activated")
        | (none, none) => none

/-- Insertion sort on counters, for reading a partition back in order. -/
def insert_counter (x : Int) : List Int → List Int
  | [] => [x]
  | y :: rest => if x ≤ y then x :: y :: rest else y :: insert_counter x rest

def sort_counters : List Int → List Int
  | [] => []
  | x :: rest => insert_counter x (sort_counters rest)

/-- The counters of one active + unscheduled partition, read back sorted. -/
def active_unscheduled_counters_sorted (organization category : Nat) (db : DB) : List Int :=
  sort_counters ((db.filter (partition_filter organization category)).map (·.counter))

/-! Scheduling validation, from `main/appointments/service.py`
(`validate_scheduled_appointment`, `validate_time_alignment`). -/

/-- The scheduling-relevant fields of a `Category` row.  `opening_hours` and
`break_hours` are the weekday-keyed JSON mappings (`dict.get` is the `Option`
lookup); the interval is in minutes. -/
structure CategoryCfg where
  id : Nat
  time_interval_per_appointment : Nat
  opening_hours : String → Option (List (Nat × Nat))
  break_hours : String → Option (List (Nat × Nat))

/-- A proposed instant, with the three views the validator reads from it:
`strftime("%A")`, `.time()` as minutes of the day, and its position on the
global timeline used by the overlap query. -/
structure Instant where
  weekday : String
  time_of_day : Nat
  absolute : Int

/-- `validate_time_alignment`: the wall-clock time must equal the start of one
generated slot.  The `none` arm mirrors the `IndexError` that an empty opening
list would raise inside `generate_time_slots`; callers only reach this with a
non-empty list. -/
def validate_time_alignment (time_of_day interval_minutes : Nat)
    (opening_hours break_hours : List (Nat × Nat)) : Except String Unit :=
  match generate_time_slots_minutes opening_hours break_hours interval_minutes with
  | none => Except.error "IndexError"
  | some valid_slots =>
      if valid_slots.any fun slot => slot.1 == time_of_day then
        Except.ok ()
      else
        let starts := String.intercalate ", " (valid_slots.map fun slot => time_to_str slot.1)
        Except.error ("Scheduled time must match one of the available start times: " ++ starts ++ ".")

/-- `validate_scheduled_appointment`: the four checks in source order; the
result is the first raised `ValidationError`, or `ok`. -/
def validate_scheduled_appointment (category : CategoryCfg) (scheduled_time : Instant)
    (db : DB) : Except String Unit :=
  let interval_minutes := category.time_interval_per_appointment
  let weekday := scheduled_time.weekday
  let break_hours := (category.break_hours weekday).getD []
  match category.opening_hours weekday with
  | none => Except.error ("Not accepting appointments for " ++ weekday ++ ".")
  | some [] => Except.error ("Not accepting appointments for " ++ weekday ++ ".")
  | some opening_hours =>
      if !(is_within_opening_hours scheduled_time.time_of_day opening_hours break_hours) then
        Except.error "Scheduled time is not within allowed hours."
      else
        match validate_time_alignment scheduled_time.time_of_day interval_minutes
            opening_hours break_hours with
        | Except.error e => Except.error e
        | Except.ok _ =>
            if !(is_slot_available category.id (Int.ofNat interval_minutes)
                scheduled_time.absolute db) then
              Except.error "The selected time slot is already taken."
            else
              Except.ok ()

/-! Move request validation and view, from `main/appointments/serializers.py`
(`BaseAppointmentIDValidatorSerializer`, `MoveAppointmentIDValidatorSerializer`)
and `main/appointments/views.py` (`move`). -/

/-- The requesting actor. -/
structure UserRec where
  id : Nat
  is_staff : Bool
  is_superuser : Bool
  groups : List Nat

/-- Category-to-group assignment, the part of the category table the
authorization check reads. -/
structure AuthEnv where
  category_group : Nat → Option Nat

/-- Membership of a category in `get_authorized_categories_for_user`. -/
def category_authorized (aenv : AuthEnv) (user : UserRec) (category : Nat) : Bool :=
  match aenv.category_group category with
  | none => false
  | some g => user.groups.contains g

/-- `check_if_user_has_authorized_category_access`. -/
def check_if_user_has_authorized_category_access (aenv : AuthEnv) (appointment_id : Nat)
    (user : UserRec) (check_creator : Bool) (ignore_status : Bool) (db : DB) : Option Bool :=
  match get_appointment_by_id appointment_id "active" ignore_status db with
  | none => none
  | some appointment =>
      if check_creator && (appointment.user == user.id) then
        some true
      else
        some (category_authorized aenv user appointment.category)

inductive ValidateResult where
  | ok
  | validation_error (msg : String)
  | unauthorized_error
deriving DecidableEq, Repr

/-- `BaseAppointmentIDValidatorSerializer.validate`: staff and superusers skip
the lookup entirely. -/
def base_appointment_id_validate (aenv : AuthEnv) (user : UserRec) (check_creator : Bool)
    (appointment_id : Nat) (db : DB) : ValidateResult :=
  if user.is_staff || user.is_superuser then
    ValidateResult.ok
  else
    match check_if_user_has_authorized_category_access aenv appointment_id user
        check_creator true db with
    | none => ValidateResult.validation_error "Appointment with this ID does not exist."
    | some false => ValidateResult.unauthorized_error
    | some true => ValidateResult.ok

/-- `MoveAppointmentIDValidatorSerializer.validate` (the move view supplies no
`check_creator` context, hence `false`). -/
def move_appointment_id_validate (aenv : AuthEnv) (user : UserRec) (appointment_id : Nat)
    (previous_appointment_id : Option Nat) (db : DB) : ValidateResult :=
  match base_appointment_id_validate aenv user false appointment_id db with
  | ValidateResult.ok =>
      match previous_appointment_id with
      | none => ValidateResult.ok
      | some pid =>
          if appointment_id = pid then
            ValidateResult.validation_error
              "The current appointment ID cannot be the same as the previous appointment ID."
          else
            match get_appointment_by_id pid "active" false db with
            | none => ValidateResult.validation_error "Appointment with this ID does not exist."
            | some _ => ValidateResult.ok
  | e => e

inductive MoveResponse where
  | success
  | validation_error (msg : String)
  | unauthorized_error
  | crash
deriving DecidableEq, Repr

/-- The `move` view: serializer validation, then `move_appointment`; an
`AttributeError` escaping the transaction leaves the database rolled back. -/
def move_view (aenv : AuthEnv) (user : UserRec) (pk : Nat)
    (previous_appointment_id : Option Nat) (db : DB) : DB × MoveResponse :=
  match move_appointment_id_validate aenv user pk previous_appointment_id db with
  | ValidateResult.validation_error msg => (db, MoveResponse.validation_error msg)
  | ValidateResult.unauthorized_error => (db, MoveResponse.unauthorized_error)
  | ValidateResult.ok =>
      match move_appointment pk previous_appointment_id db with
      | none => (db, MoveResponse.crash)
      | some db2 => (db2, MoveResponse.success)

/-! Concrete fixtures used by the evaluation, witness and counterexample
theorems below. -/

/-- An environment in which every organization and category is active. -/
def env_all_active : Env :=
  { organization_active := fun _ => true, category_active := fun _ _ => true }

/-- An unscheduled queue row. -/
def mk_unscheduled (id organization category user : Nat) (status : String)
    (counter : Int) : Appt :=
  { id := id, organization := organization, category := category, user := user,
    status := status, counter := counter, is_scheduled := false,
    scheduled_time := none, scheduled_end_time := none, updated_by := none }

/-- An active scheduled row occupying a concrete time interval. -/
def mk_scheduled (id category : Nat) (scheduled_time scheduled_end_time : Int) : Appt :=
  { id := id, organization := 1, category := category, user := 1,
    status := "active", counter := 1, is_scheduled := true,
    scheduled_time := some scheduled_time,
    scheduled_end_time := some scheduled_end_time, updated_by := none }

/-- Category-group table with no groups assigned. -/
def aenv_no_groups : AuthEnv := { category_group := fun _ => none }

def staff_user : UserRec := { id := 1, is_staff := true, is_superuser := false, groups := [] }

def plain_user : UserRec := { id := 1, is_staff := false, is_superuser := false, groups := [] }

/-- A category closed on Saturday and otherwise open 09:00 to 12:00. -/
def saturday_closed_category : CategoryCfg :=
  { id := 7, time_interval_per_appointment := 30,
    opening_hours := fun weekday => if weekday = "Saturday" then some [] else some [(540, 720)],
    break_hours := fun _ => some [] }

/-! Helper lemmas about the slot generator. -/

theorem break_le_trans (a b c : Nat × Nat) (hab : break_le a b) (hbc : break_le b c) :
    break_le a c := by
  simp only [break_le, Bool.or_eq_true, Bool.and_eq_true, beq_iff_eq,
    decide_eq_true_eq] at *
  omega

theorem break_le_total (a b : Nat × Nat) : break_le a b ∨ break_le b a := by
  simp only [break_le, Bool.or_eq_true, Bool.and_eq_true, beq_iff_eq, decide_eq_true_eq]
  omega

theorem mem_insert_break (x : Nat × Nat) (l : List (Nat × Nat)) (a : Nat × Nat) :
    a ∈ insert_break x l ↔ a = x ∨ a ∈ l := by
  induction l with
  | nil => simp [insert_break]
  | cons y rest ih =>
      simp only [insert_break]
      split
      · simp [List.mem_cons]
      · simp only [List.mem_cons, ih]
        tauto

theorem mem_sort_breaks (l : List (Nat × Nat)) (a : Nat × Nat) :
    a ∈ sort_breaks l ↔ a ∈ l := by
  induction l with
  | nil => simp [sort_breaks]
  | cons x rest ih =>
      simp only [sort_breaks, mem_insert_break, ih, List.mem_cons]

theorem insert_break_pairwise (x : Nat × Nat) (l : List (Nat × Nat))
    (h : l.Pairwise fun a b => break_le a b) :
    (insert_break x l).Pairwise fun a b => break_le a b := by
  induction l with
  | nil => exact List.pairwise_singleton _ _
  | cons y rest ih =>
      simp only [insert_break]
      split
      · rename_i hxy
        refine List.Pairwise.cons ?_ h
        intro z hz
        rcases List.mem_cons.mp hz with rfl | hz2
        · exact hxy
        · exact break_le_trans x y z hxy ((List.pairwise_cons.mp h).1 z hz2)
      · rename_i hxy
        have hyx : break_le y x := by
          rcases break_le_total x y with h1 | h1
          · exact absurd h1 hxy
          · exact h1
        refine List.Pairwise.cons ?_ (ih (List.pairwise_cons.mp h).2)
        intro z hz
        rcases (mem_insert_break x rest z).mp hz with rfl | hz2
        · exact hyx
        · exact (List.pairwise_cons.mp h).1 z hz2

theorem sort_breaks_pairwise (l : List (Nat × Nat)) :
    (sort_breaks l).Pairwise fun a b => break_le a b := by
  induction l with
  | nil => exact List.Pairwise.nil
  | cons x rest ih => exact insert_break_pairwise x (sort_breaks rest) ih

theorem sorted_breaks_start_le (break_hours : List (Nat × Nat)) :
    (sort_breaks break_hours).Pairwise fun a b => a.1 ≤ b.1 :=
  (sort_breaks_pairwise break_hours).imp fun hab => by
    simp only [break_le, Bool.or_eq_true, Bool.and_eq_true, beq_iff_eq,
      decide_eq_true_eq] at hab
    omega

theorem tile_loop_mem (block_end interval : Nat) :
    ∀ fuel current, ∀ s ∈ tile_loop fuel current block_end interval,
      s.2 = s.1 + interval ∧ current ≤ s.1 ∧ s.2 ≤ block_end := by
  intro fuel
  induction fuel with
  | zero => intro current s hs; simp [tile_loop] at hs
  | succ n ih =>
      intro current s hs
      simp only [tile_loop] at hs
      split at hs
      · rename_i h
        rcases List.mem_cons.mp hs with rfl | h1
        · exact ⟨rfl, Nat.le_refl _, h.2⟩
        · obtain ⟨e1, e2, e3⟩ := ih (current + interval) s h1
          exact ⟨e1, Nat.le_trans (Nat.le_add_right current interval) e2, e3⟩
      · simp at hs

theorem tile_block_mem (block_start block_end interval : Nat) :
    ∀ s ∈ tile_block block_start block_end interval,
      s.2 = s.1 + interval ∧ block_start ≤ s.1 ∧ s.2 ≤ block_end :=
  tile_loop_mem block_end interval (block_end - block_start) block_start

theorem tile_loop_pairwise (block_end interval : Nat) :
    ∀ fuel current,
      (tile_loop fuel current block_end interval).Pairwise fun s1 s2 => s1.2 ≤ s2.1 := by
  intro fuel
  induction fuel with
  | zero => intro current; exact List.Pairwise.nil
  | succ n ih =>
      intro current
      simp only [tile_loop]
      split
      · refine List.Pairwise.cons ?_ (ih (current + interval))
        intro s hs
        exact (tile_loop_mem block_end interval n (current + interval) s hs).2.1
      · exact List.Pairwise.nil

theorem tile_block_pairwise (block_start block_end interval : Nat) :
    (tile_block block_start block_end interval).Pairwise fun s1 s2 => s1.2 ≤ s2.1 :=
  tile_loop_pairwise block_end interval _ _

theorem usable_blocks_start_le (opening_end : Nat) (bl : List (Nat × Nat)) :
    ∀ current, ∀ blk ∈ usable_blocks_loop opening_end current bl, current ≤ blk.1 := by
  induction bl with
  | nil =>
      intro current blk hblk
      simp only [usable_blocks_loop] at hblk
      by_cases hlt : current < opening_end
      · simp [hlt] at hblk
        subst hblk
        exact Nat.le_refl _
      · simp [hlt] at hblk
  | cons hd rest ih =>
      intro current blk hblk
      obtain ⟨bs, be⟩ := hd
      simp only [usable_blocks_loop, List.mem_append] at hblk
      rcases hblk with h1 | h1
      · by_cases hlt : current < bs
        · simp [hlt] at h1
          subst h1
          exact Nat.le_refl _
        · simp [hlt] at h1
      · exact Nat.le_trans (Nat.le_max_left current be) (ih (max current be) blk h1)

theorem usable_blocks_mem_bounds (opening_end : Nat) (bl : List (Nat × Nat))
    (hwf : ∀ b ∈ bl, b.1 ≤ opening_end) :
    ∀ current, ∀ blk ∈ usable_blocks_loop opening_end current bl,
      current ≤ blk.1 ∧ blk.1 < blk.2 ∧ blk.2 ≤ opening_end := by
  induction bl with
  | nil =>
      intro current blk hblk
      simp only [usable_blocks_loop] at hblk
      by_cases hlt : current < opening_end
      · simp [hlt] at hblk
        subst hblk
        exact ⟨Nat.le_refl _, hlt, Nat.le_refl _⟩
      · simp [hlt] at hblk
  | cons hd rest ih =>
      intro current blk hblk
      obtain ⟨bs, be⟩ := hd
      simp only [usable_blocks_loop, List.mem_append] at hblk
      rcases hblk with h1 | h1
      · by_cases hlt : current < bs
        · simp [hlt] at h1
          subst h1
          exact ⟨Nat.le_refl _, hlt, hwf (bs, be) (List.mem_cons_self _ _)⟩
        · simp [hlt] at h1
      · have hr := ih (fun b hb => hwf b (List.mem_cons_of_mem _ hb)) (max current be) blk h1
        exact ⟨Nat.le_trans (Nat.le_max_left _ _) hr.1, hr.2.1, hr.2.2⟩

theorem usable_blocks_disjoint (opening_end : Nat) (bl : List (Nat × Nat))
    (hsorted : bl.Pairwise fun a b => a.1 ≤ b.1) :
    ∀ current, ∀ blk ∈ usable_blocks_loop opening_end current bl,
      ∀ b ∈ bl, blk.2 ≤ b.1 ∨ b.2 ≤ blk.1 := by
  induction bl with
  | nil =>
      intro current blk _ b hb
      simp at hb
  | cons hd rest ih =>
      intro current blk hblk b hb
      obtain ⟨bs, be⟩ := hd
      simp only [usable_blocks_loop, List.mem_append] at hblk
      rcases List.mem_cons.mp hb with rfl | hbrest
      · rcases hblk with h1 | h1
        · by_cases hlt : current < bs
          · simp [hlt] at h1
            subst h1
            left
            exact Nat.le_refl _
          · simp [hlt] at h1
        · right
          exact Nat.le_trans (Nat.le_max_right current be)
            (usable_blocks_start_le opening_end rest (max current be) blk h1)
      · rcases hblk with h1 | h1
        · by_cases hlt : current < bs
          · simp [hlt] at h1
            subst h1
            left
            exact (List.pairwise_cons.mp hsorted).1 b hbrest
          · simp [hlt] at h1
        · exact ih (List.pairwise_cons.mp hsorted).2 (max current be) blk h1 b hbrest

theorem usable_blocks_pairwise (opening_end : Nat) (bl : List (Nat × Nat))
    (hwf : ∀ b ∈ bl, b.1 ≤ b.2) :
    ∀ current,
      (usable_blocks_loop opening_end current bl).Pairwise fun b1 b2 => b1.2 ≤ b2.1 := by
  induction bl with
  | nil =>
      intro current
      simp only [usable_blocks_loop]
      split
      · exact List.pairwise_singleton _ _
      · exact List.Pairwise.nil
  | cons hd rest ih =>
      intro current
      obtain ⟨bs, be⟩ := hd
      simp only [usable_blocks_loop]
      apply List.pairwise_append.mpr
      refine ⟨?_, ih (fun b hb => hwf b (List.mem_cons_of_mem _ hb)) (max current be), ?_⟩
      · split
        · exact List.pairwise_singleton _ _
        · exact List.Pairwise.nil
      · intro x hx y hy
        by_cases hlt : current < bs
        · simp [hlt] at hx
          subst hx
          have hy1 := usable_blocks_start_le opening_end rest (max current be) y hy
          have hbsbe := hwf (bs, be) (List.mem_cons_self _ _)
          have hbe : be ≤ max current be := Nat.le_max_right _ _
          exact Nat.le_trans (Nat.le_trans hbsbe hbe) hy1
        · simp [hlt] at hx

theorem slots_of_blocks_nil (interval : Nat) : slots_of_blocks [] interval = [] := rfl

theorem slots_of_blocks_cons (b : Nat × Nat) (rest : List (Nat × Nat)) (interval : Nat) :
    slots_of_blocks (b :: rest) interval =
      tile_block b.1 b.2 interval ++ slots_of_blocks rest interval := rfl

theorem slots_of_blocks_mem (blocks : List (Nat × Nat)) (interval : Nat) (s : Nat × Nat) :
    s ∈ slots_of_blocks blocks interval ↔
      ∃ b ∈ blocks, s ∈ tile_block b.1 b.2 interval := by
  induction blocks with
  | nil => simp [slots_of_blocks_nil]
  | cons b rest ih =>
      simp only [slots_of_blocks_cons, List.mem_append, ih, List.mem_cons]
      constructor
      · rintro (h | ⟨b2, hb2, hs2⟩)
        · exact ⟨b, Or.inl rfl, h⟩
        · exact ⟨b2, Or.inr hb2, hs2⟩
      · rintro ⟨b2, hb2 | hb2, hs2⟩
        · subst hb2; exact Or.inl hs2
        · exact Or.inr ⟨b2, hb2, hs2⟩

theorem slots_of_blocks_pairwise (blocks : List (Nat × Nat)) (interval : Nat)
    (hpair : blocks.Pairwise fun b1 b2 => b1.2 ≤ b2.1) :
    (slots_of_blocks blocks interval).Pairwise fun s1 s2 => s1.2 ≤ s2.1 := by
  induction blocks with
  | nil => exact List.Pairwise.nil
  | cons b rest ih =>
      rw [slots_of_blocks_cons]
      apply List.pairwise_append.mpr
      refine ⟨tile_block_pairwise _ _ _, ih (List.pairwise_cons.mp hpair).2, ?_⟩
      intro x hx y hy
      obtain ⟨b2, hb2, hy2⟩ := (slots_of_blocks_mem rest interval y).mp hy
      have h1 := (tile_block_mem _ _ _ x hx).2.2
      have h2 := (List.pairwise_cons.mp hpair).1 b2 hb2
      have h3 := (tile_block_mem _ _ _ y hy2).2.1
      omega

theorem usable_blocks_loop_early_breaks (opening_end current : Nat)
    (bl : List (Nat × Nat)) (hb : ∀ b ∈ bl, b.1 ≤ b.2 ∧ b.2 ≤ current) :
    usable_blocks_loop opening_end current bl = usable_blocks_loop opening_end current [] := by
  induction bl with
  | nil => rfl
  | cons hd rest ih =>
      obtain ⟨bs, be⟩ := hd
      have h1 := hb (bs, be) (List.mem_cons_self _ _)
      simp only at h1
      have hnlt : ¬ current < bs := by omega
      have hmax : max current be = current := by omega
      simp only [usable_blocks_loop, if_neg hnlt, hmax, List.nil_append]
      exact ih fun b hbr => hb b (List.mem_cons_of_mem _ hbr)

/-! Claim C2. -/

/-- Claim C2 counterexample: with a break range lying after the closing time,
`generate_time_slots` emits slots that extend past the opening range — the slot
`(120, 150)` ends at 150 although the opening range closes at 100, so the
claim's universal quantification over arbitrary break lists is false. -/
theorem c2_slots_outside_opening :
    generate_time_slots_minutes [(0, 100)] [(150, 180)] 30 =
      some [(0, 30), (30, 60), (60, 90), (90, 120), (120, 150)] ∧ ¬(150 ≤ 100) := by
  decide

/-- Claim C2 (amended): for every opening range, positive interval, and list of
break ranges each well-formed and contained in the opening range (the data
model invariant), every generated slot is exactly `interval` minutes long, lies
within the opening range and outside every break range, no two slots overlap
and they are sorted ascending; and the spec's concrete example holds verbatim
(09:00 = 540, 12:00 = 720). -/
theorem c2_slot_tiling :
    (∀ opening_start opening_end interval
        (break_hours : List (Nat × Nat)),
      0 < interval →
      (∀ b ∈ break_hours, opening_start ≤ b.1 ∧ b.1 < b.2 ∧ b.2 ≤ opening_end) →
      ∃ slots,
        generate_time_slots_minutes [(opening_start, opening_end)] break_hours interval
            = some slots ∧
        (∀ s ∈ slots, s.2 = s.1 + interval) ∧
        (∀ s ∈ slots, opening_start ≤ s.1 ∧ s.2 ≤ opening_end) ∧
        (∀ s ∈ slots, ∀ b ∈ break_hours, s.2 ≤ b.1 ∨ b.2 ≤ s.1) ∧
        slots.Pairwise fun s1 s2 => s1.2 ≤ s2.1) ∧
    generate_time_slots [("09:00", "12:00")] [("09:30", "10:30")] 30 =
      some [("09:00", "09:30"), ("10:30", "11:00"), ("11:00", "11:30"), ("11:30", "12:00")] := by
  constructor
  · intro os oe i bh hi hb
    have hmem : ∀ b : Nat × Nat, b ∈ sort_breaks bh ↔ b ∈ bh := fun b =>
      mem_sort_breaks bh b
    refine ⟨_, rfl, ?_, ?_, ?_, ?_⟩
    · intro s hs
      obtain ⟨blk, _, hstile⟩ := (slots_of_blocks_mem _ _ _).mp hs
      exact (tile_block_mem _ _ _ s hstile).1
    · intro s hs
      obtain ⟨blk, hblk, hstile⟩ := (slots_of_blocks_mem _ _ _).mp hs
      have hbnd := usable_blocks_mem_bounds oe (sort_breaks bh)
        (fun b hbm => by have := hb b ((hmem b).mp hbm); omega) os blk hblk
      have ht := tile_block_mem _ _ _ s hstile
      omega
    · intro s hs b hbmem
      obtain ⟨blk, hblk, hstile⟩ := (slots_of_blocks_mem _ _ _).mp hs
      have hd := usable_blocks_disjoint oe (sort_breaks bh)
        (sorted_breaks_start_le bh) os blk hblk b ((hmem b).mpr hbmem)
      have ht := tile_block_mem _ _ _ s hstile
      rcases hd with h | h
      · left; omega
      · right; omega
    · exact slots_of_blocks_pairwise _ _ (usable_blocks_pairwise oe (sort_breaks bh)
        (fun b hbm => by have := hb b ((hmem b).mp hbm); omega) os)
  · decide

/-- Claim C2 witness: the amended theorem applied to the spec's concrete
example input. -/
theorem c2_slot_tiling_witness :
    (0 < 30 ∧ ∀ b ∈ [((570 : Nat), (630 : Nat))], 540 ≤ b.1 ∧ b.1 < b.2 ∧ b.2 ≤ 720) ∧
    ∃ slots,
      generate_time_slots_minutes [(540, 720)] [(570, 630)] 30 = some slots ∧
      (∀ s ∈ slots, s.2 = s.1 + 30) ∧
      (∀ s ∈ slots, 540 ≤ s.1 ∧ s.2 ≤ 720) ∧
      (∀ s ∈ slots, ∀ b ∈ [((570 : Nat), (630 : Nat))], s.2 ≤ b.1 ∨ b.2 ≤ s.1) ∧
      slots.Pairwise fun s1 s2 => s1.2 ≤ s2.1 :=
  ⟨⟨by decide, by decide⟩, c2_slot_tiling.1 540 720 30 [(570, 630)] (by decide) (by decide)⟩

/-! Claim C6. -/

/-- Claim C6 counterexample: the break `[780, 840]` is disjoint from the
opening range `[600, 720]`, yet the generated slots differ from the no-break
result (the cursor walks to the break start, past the closing time). -/
theorem c6_disjoint_break_changes_output :
    720 < 780 ∧
    generate_time_slots_minutes [(600, 720)] [(780, 840)] 30 ≠
      generate_time_slots_minutes [(600, 720)] [] 30 := by
  decide

/-- Claim C6 (amended): break ranges that end at or before the opening start
(and are well-formed) leave the generated slots unchanged; a non-intersecting
break lying after the closing time does change them. -/
theorem c6_break_subtraction_idempotent (opening_start opening_end interval : Nat)
    (break_hours : List (Nat × Nat))
    (hb : ∀ b ∈ break_hours, b.1 ≤ b.2 ∧ b.2 ≤ opening_start) :
    generate_time_slots_minutes [(opening_start, opening_end)] break_hours interval =
      generate_time_slots_minutes [(opening_start, opening_end)] [] interval := by
  simp only [generate_time_slots_minutes, sort_breaks]
  rw [usable_blocks_loop_early_breaks opening_end opening_start (sort_breaks break_hours)
    fun b hbm => hb b ((mem_sort_breaks break_hours b).mp hbm)]

/-- Claim C6 witness: a well-formed break ending before the opening start
leaves the slots unchanged. -/
theorem c6_break_subtraction_witness :
    (∀ b ∈ [((100 : Nat), (200 : Nat))], b.1 ≤ b.2 ∧ b.2 ≤ 600) ∧
    generate_time_slots_minutes [(600, 720)] [(100, 200)] 30 =
      generate_time_slots_minutes [(600, 720)] [] 30 :=
  ⟨by decide, c6_break_subtraction_idempotent 600 720 30 [(100, 200)] (by decide)⟩

/-! Claim C9. -/

/-- Claim C9 counterexample: on an empty opening-hours list the source indexes
`opening_hours[0]` and raises `IndexError` (the `none` result) instead of
returning an empty slot list. -/
theorem c9_empty_opening_crashes :
    generate_time_slots [] [] 15 = none ∧
    (none : Option (List (String × String))) ≠ some [] := by
  decide

/-- Claim C9 (amended): an empty opening-hours list raises (`none`); a
zero-width opening range yields an empty slot list, and a break range fully
covering the opening range yields an empty slot list, both returned
normally. -/
theorem c9_slot_generation_edge_cases :
    (∀ break_hours interval,
      generate_time_slots_minutes [] break_hours interval = none) ∧
    (∀ t interval, generate_time_slots_minutes [(t, t)] [] interval = some []) ∧
    (∀ opening_start opening_end break_start break_end interval,
      break_start ≤ opening_start → opening_end ≤ break_end →
      generate_time_slots_minutes [(opening_start, opening_end)]
        [(break_start, break_end)] interval = some []) := by
  refine ⟨fun _ _ => rfl, ?_, ?_⟩
  · intro t interval
    simp only [generate_time_slots_minutes, sort_breaks, usable_blocks_loop,
      Nat.lt_irrefl, if_false, slots_of_blocks_nil]
  · intro os oe bs be i h1 h2
    have hnlt : ¬ os < bs := by omega
    have hnlt2 : ¬ max os be < oe := by
      have := Nat.le_max_right os be
      omega
    simp only [generate_time_slots_minutes, sort_breaks, insert_break,
      usable_blocks_loop, if_neg hnlt, if_neg hnlt2, List.nil_append,
      slots_of_blocks_nil]

/-- Claim C9 witness: a break covering the whole opening range produces an
empty slot list without raising. -/
theorem c9_edge_cases_witness :
    (50 ≤ 60 ∧ 720 ≤ 800) ∧
    generate_time_slots_minutes [(60, 720)] [(50, 800)] 30 = some [] :=
  ⟨by decide, c9_slot_generation_edge_cases.2.2 60 720 50 800 30 (by decide) (by decide)⟩

/-! Claim C1. -/

/-- Claim C1: the counter contiguity invariant is violated by the code.  From
an empty partition, two Creates produce counters `[1, 2]`; moving the front
appointment to the front (`previous_id = None`) then yields counters `[2, 2]`
instead of `[1, 2]` — `get_first_counter_for_appointment` returns `min - 1`
over the partition with the moved row already excluded, so the front row is
reassigned `min`, colliding with the row that holds it. -/
theorem c1_counter_contiguity_violated :
    (move_appointment 1 none
        (create_unscheduled_appointment env_all_active 1 1 2 2
          (create_unscheduled_appointment env_all_active 1 1 1 1 []))).map
      (active_unscheduled_counters_sorted 1 1) = some [2, 2] ∧
    ([2, 2] : List Int) ≠ [1, 2] := by
  decide

/-! Claim C4. -/

/-- Claim C4: moving the appointment at position p = 1 of a partition with
counters `[1, 2]` to the front (`previous_id = None`) gives it counter 2, not
counter 1, and leaves the partition counters `[2, 2]` instead of `[1, 2]` —
the claim's conclusion fails at p = 1. -/
theorem c4_move_front_to_front_misassigns :
    (move_appointment 1 none
        [mk_unscheduled 1 1 1 1 "active" 1, mk_unscheduled 2 1 1 2 "active" 2]).map
      (fun db3 =>
        ((get_appointment_by_id 1 "active" false db3).map (·.counter),
          active_unscheduled_counters_sorted 1 1 db3)) =
      some (some 2, [2, 2]) ∧
    (some (2 : Int), ([2, 2] : List Int)) ≠ (some 1, [1, 2]) := by
  decide

/-! Claim C3. -/

theorem option_elim_eq_true (o : Option Int) (p : Int → Bool) :
    o.elim false p = true ↔ ∃ v, o = some v ∧ p v = true := by
  cases o with
  | none => simp [Option.elim]
  | some v => simp [Option.elim]

/-- Claim C3: a proposed time for a category is rejected by the availability
check exactly when some existing active appointment of the category satisfies
`existing.start < proposed.end` and `existing.end > proposed.start`;
consequently an appointment occupying `[t0, t0+d)` blocks the identical
proposal and every proposal overlapping it by even one minute, while a
proposal starting exactly at `t0 + d` passes the check against it. -/
theorem c3_slot_overlap_rejection (category : Nat) (d : Int) (db : DB) :
    (∀ t, is_slot_available category d t db = false ↔
      ∃ a ∈ db, a.category = category ∧ a.status = "active" ∧
        ∃ st en, a.scheduled_time = some st ∧ a.scheduled_end_time = some en ∧
          st < t + d ∧ t < en) ∧
    (∀ a ∈ db, ∀ t0 : Int, a.category = category → a.status = "active" →
      a.scheduled_time = some t0 → a.scheduled_end_time = some (t0 + d) →
      0 < d →
      is_slot_available category d t0 db = false ∧
      ∀ u : Int, u < t0 + d → t0 < u + d → is_slot_available category d u db = false) ∧
    (∀ b : Appt, b.category = category → b.status = "active" →
      ∀ t0 : Int, b.scheduled_time = some t0 → b.scheduled_end_time = some (t0 + d) →
      is_slot_available category d (t0 + d) [b] = true) := by
  have hiff : ∀ t, is_slot_available category d t db = false ↔
      ∃ a ∈ db, a.category = category ∧ a.status = "active" ∧
        ∃ st en, a.scheduled_time = some st ∧ a.scheduled_end_time = some en ∧
          st < t + d ∧ t < en := by
    intro t
    simp only [is_slot_available, Bool.not_eq_false', List.any_eq_true,
      Bool.and_eq_true, beq_iff_eq, option_elim_eq_true, decide_eq_true_eq]
    constructor
    · rintro ⟨a, ha, ⟨⟨⟨hc, hs⟩, ⟨st, hst, h1⟩⟩, ⟨en, hen, h2⟩⟩⟩
      exact ⟨a, ha, hc, hs, st, en, hst, hen, h1, h2⟩
    · rintro ⟨a, ha, hc, hs, st, en, hst, hen, h1, h2⟩
      exact ⟨a, ha, ⟨⟨⟨hc, hs⟩, ⟨st, hst, h1⟩⟩, ⟨en, hen, h2⟩⟩⟩
  refine ⟨hiff, ?_, ?_⟩
  · intro a ha t0 hcat hstat hst hen hd
    refine ⟨(hiff t0).mpr ⟨a, ha, hcat, hstat, t0, t0 + d, hst, hen, by omega, by omega⟩, ?_⟩
    intro u hu1 hu2
    exact (hiff u).mpr ⟨a, ha, hcat, hstat, t0, t0 + d, hst, hen, by omega, by omega⟩
  · intro b hcat hstat t0 hst hen
    have h2 : (b.scheduled_end_time.elim false fun en => decide (t0 + d < en)) = false := by
      rw [hen]
      simp
    simp only [is_slot_available, List.any_cons, List.any_nil, Bool.or_false, h2,
      Bool.and_false, Bool.not_false]

/-- Claim C3 witness: a concrete active appointment occupying `[1000, 1030)`
in category 7 blocks the identical proposal, and the proposal starting at
1030 passes the check against it. -/
theorem c3_overlap_witness :
    (mk_scheduled 1 7 1000 1030 ∈ [mk_scheduled 1 7 1000 1030] ∧ (0 : Int) < 30) ∧
    is_slot_available 7 30 1000 [mk_scheduled 1 7 1000 1030] = false ∧
    is_slot_available 7 30 1030 [mk_scheduled 1 7 1000 1030] = true :=
  ⟨⟨by simp, by decide⟩,
   ((c3_slot_overlap_rejection 7 30 [mk_scheduled 1 7 1000 1030]).2.1
      (mk_scheduled 1 7 1000 1030) (by simp) 1000 rfl rfl rfl rfl (by decide)).1,
   (c3_slot_overlap_rejection 7 30 [mk_scheduled 1 7 1000 1030]).2.2
      (mk_scheduled 1 7 1000 1030) rfl rfl 1000 rfl rfl⟩

/-! Claim C5. -/

/-- Claim C5: window membership is half-open — an instant is inside a range
exactly when `start ≤ t < end`, so an instant equal to the range end fails the
opening check, one equal to the range start passes it (when outside every
break), and an instant inside any break range yields `false` regardless of the
opening ranges. -/
theorem c5_half_open_window (s e : Nat) (break_hours : List (Nat × Nat)) :
    (∀ t, is_within_ranges t [(s, e)] = true ↔ s ≤ t ∧ t < e) ∧
    (∀ t opening_hours, is_within_ranges t break_hours = true →
      is_within_opening_hours t opening_hours break_hours = false) ∧
    is_within_opening_hours e [(s, e)] break_hours = false ∧
    (s < e → is_within_ranges s break_hours = false →
      is_within_opening_hours s [(s, e)] break_hours = true) := by
  refine ⟨?_, ?_, ?_, ?_⟩
  · intro t
    simp [is_within_ranges]
  · intro t opening_hours hb
    simp [is_within_opening_hours, hb]
  · simp [is_within_opening_hours, is_within_ranges]
  · intro hse hnb
    unfold is_within_opening_hours
    rw [hnb]
    simp [is_within_ranges, hse]

/-- Claim C5 witness: opening 09:00 to 12:00 (540 to 720) with break 09:30 to
10:30; the instant 540 equals the opening start and is accepted. -/
theorem c5_boundary_witness :
    (540 < 720 ∧ is_within_ranges 540 [(570, 630)] = false) ∧
    is_within_opening_hours 540 [(540, 720)] [(570, 630)] = true :=
  ⟨⟨by decide, by decide⟩,
   (c5_half_open_window 540 720 [(570, 630)]).2.2.2 (by decide) (by decide)⟩

/-! Claim C7. -/

/-- Claim C7: when the weekday of the proposed instant has an empty
opening-hours list, validation fails with the closed-weekday message whatever
the time of day, before the window, alignment and availability checks run. -/
theorem c7_closed_weekday (category : CategoryCfg) (t : Instant) (db : DB)
    (h : category.opening_hours t.weekday = some []) :
    validate_scheduled_appointment category t db =
      Except.error ("Not accepting appointments for " ++ t.weekday ++ ".") := by
  simp only [validate_scheduled_appointment, h]

/-- Claim C7 witness: a category closed on Saturday rejects a Saturday 10:00
proposal with the closed-weekday message. -/
theorem c7_closed_weekday_witness :
    saturday_closed_category.opening_hours "Saturday" = some [] ∧
    validate_scheduled_appointment saturday_closed_category ⟨"Saturday", 600, 0⟩ [] =
      Except.error "Not accepting appointments for Saturday." :=
  ⟨rfl, c7_closed_weekday saturday_closed_category ⟨"Saturday", 600, 0⟩ [] rfl⟩

/-! Claim C8. -/

/-- Claim C8 counterexample: a staff actor moving a nonexistent appointment id
is not rejected by the serializer — `move_appointment` then dereferences a
`None` lookup and the request crashes with an `AttributeError` instead of a
validation error. -/
theorem c8_staff_nonexistent_current_crashes :
    move_view aenv_no_groups staff_user 42 none [] = ([], MoveResponse.crash) ∧
    MoveResponse.crash ≠
      MoveResponse.validation_error "Appointment with this ID does not exist." := by
  decide

/-- Claim C8 (amended): `previous_id = current_id` and a nonexistent
`previous_appointment_id` are rejected with validation errors for every actor
that passes the base appointment-id validation — staff and superusers always
do, because the base check returns early for them without looking up the
current appointment id; a non-staff actor is rejected with a validation error
when the current appointment id does not exist, and with an authorization
error, before the previous-id checks run, when it exists but the actor is
unauthorized for its category; for a staff or superuser actor a nonexistent
current appointment id passes validation and the move crashes with an
`AttributeError` (the transaction rolls back, so the database is unchanged in
every case). -/
theorem c8_move_input_validation (aenv : AuthEnv) (db : DB) (pk : Nat) :
    (∀ user : UserRec, user.is_staff = true ∨ user.is_superuser = true →
      base_appointment_id_validate aenv user false pk db = ValidateResult.ok) ∧
    (∀ user : UserRec,
      base_appointment_id_validate aenv user false pk db = ValidateResult.ok →
      move_view aenv user pk (some pk) db =
        (db, MoveResponse.validation_error
          "The current appointment ID cannot be the same as the previous appointment ID.")) ∧
    (∀ (user : UserRec) (pid : Nat),
      base_appointment_id_validate aenv user false pk db = ValidateResult.ok →
      pid ≠ pk →
      get_appointment_by_id pid "active" false db = none →
      move_view aenv user pk (some pid) db =
        (db, MoveResponse.validation_error "Appointment with this ID does not exist.")) ∧
    (∀ (user : UserRec) (prev : Option Nat), user.is_staff = false →
      user.is_superuser = false →
      get_appointment_by_id pk "active" true db = none →
      move_view aenv user pk prev db =
        (db, MoveResponse.validation_error "Appointment with this ID does not exist.")) ∧
    (∀ (user : UserRec) (prev : Option Nat), user.is_staff = false →
      user.is_superuser = false →
      check_if_user_has_authorized_category_access aenv pk user false true db = some false →
      move_view aenv user pk prev db = (db, MoveResponse.unauthorized_error)) ∧
    (∀ user : UserRec, user.is_staff = true →
      get_appointment_by_id pk "active" false db = none →
      move_view aenv user pk none db = (db, MoveResponse.crash)) := by
  refine ⟨?_, ?_, ?_, ?_, ?_, ?_⟩
  · intro user h
    rcases h with h | h <;>
      simp [base_appointment_id_validate, h]
  · intro user hbase
    simp [move_view, move_appointment_id_validate, hbase]
  · intro user pid hbase hne hget
    have hne2 : ¬ pk = pid := fun hx => hne hx.symm
    simp [move_view, move_appointment_id_validate, hbase, hne2, hget]
  · intro user prev hstaff hsuper hget
    simp [move_view, move_appointment_id_validate, base_appointment_id_validate,
      check_if_user_has_authorized_category_access, hstaff, hsuper, hget]
  · intro user prev hstaff hsuper hacc
    simp [move_view, move_appointment_id_validate, base_appointment_id_validate,
      hstaff, hsuper, hacc]
  · intro user hstaff hget
    have hbase : base_appointment_id_validate aenv user false pk db = ValidateResult.ok := by
      simp [base_appointment_id_validate, hstaff]
    simp [move_view, move_appointment_id_validate, move_appointment, hbase, hget]

/-- Claim C8 witness: the base check passing for a staff actor, the same-id
and nonexistent-previous rejections, the non-staff nonexistent-current
rejection, the non-staff unauthorized 403 that precedes the previous-id
checks, and the staff crash branch, at concrete inputs. -/
theorem c8_move_validation_witness :
    (staff_user.is_staff = true ∧ plain_user.is_staff = false ∧
      get_appointment_by_id 5 "active" false [] = none ∧
      check_if_user_has_authorized_category_access aenv_no_groups 3 plain_user false true
        [mk_unscheduled 3 1 1 2 "active" 1] = some false) ∧
    base_appointment_id_validate aenv_no_groups staff_user false 3 [] = ValidateResult.ok ∧
    move_view aenv_no_groups staff_user 3 (some 3) [] =
      ([], MoveResponse.validation_error
        "The current appointment ID cannot be the same as the previous appointment ID.") ∧
    move_view aenv_no_groups staff_user 3 (some 5) [] =
      ([], MoveResponse.validation_error "Appointment with this ID does not exist.") ∧
    move_view aenv_no_groups plain_user 3 none [] =
      ([], MoveResponse.validation_error "Appointment with this ID does not exist.") ∧
    move_view aenv_no_groups plain_user 3 (some 3) [mk_unscheduled 3 1 1 2 "active" 1] =
      ([mk_unscheduled 3 1 1 2 "active" 1], MoveResponse.unauthorized_error) ∧
    move_view aenv_no_groups staff_user 3 none [] = ([], MoveResponse.crash) :=
  ⟨⟨rfl, rfl, rfl, rfl⟩,
   (c8_move_input_validation aenv_no_groups [] 3).1 staff_user (Or.inl rfl),
   (c8_move_input_validation aenv_no_groups [] 3).2.1 staff_user rfl,
   (c8_move_input_validation aenv_no_groups [] 3).2.2.1 staff_user 5 rfl (by decide) rfl,
   (c8_move_input_validation aenv_no_groups [] 3).2.2.2.1 plain_user none rfl rfl rfl,
   (c8_move_input_validation aenv_no_groups [mk_unscheduled 3 1 1 2 "active" 1] 3).2.2.2.2.1
     plain_user (some 3) rfl rfl rfl,
   (c8_move_input_validation aenv_no_groups [] 3).2.2.2.2.2 staff_user rfl rfl⟩

/-! Claim C10. -/

/-- Claim C10: setting a non-active status with `ignore_status=True` on an
appointment already outside the active partition (status `cancel` or
`checkin`) succeeds and decrements again the counter of every active
unscheduled appointment of the same (organization, category) partition whose
counter exceeds the target's stored counter — the decrement runs on every
non-active status write, not only on transitions out of the active
partition. -/
theorem c10_status_change_renumbers_again (db : DB) (appointment_id : Nat)
    (st : String) (user : Nat) (appt : Appt)
    (hlook : get_appointment_by_id appointment_id "active" true db = some appt)
    (hst : st = "cancel" ∨ st = "checkin")
    (_hprior : appt.status = "cancel" ∨ appt.status = "checkin")
    (_hunsched : appt.is_scheduled = false) :
    set_appointment_status_and_update_counter appointment_id st user true db =
      (db.map fun a =>
        if a.id = appt.id then { appt with status := st, updated_by := some user }
        else if adjust_filter { appt with status := st, updated_by := some user }
            appt.counter none a then { a with counter := a.counter - 1 }
        else a,
       true, "Appointment status updated to " ++ st ++ " successfully.") := by
  have hchoice : st ∈ STATUS_CHOICES := by
    rcases hst with rfl | rfl <;> simp [STATUS_CHOICES]
  have hne : st ≠ "active" := by
    rcases hst with rfl | rfl <;> decide
  have hbne : (st == "active") = false := by
    rcases hst with rfl | rfl <;> rfl
  simp only [set_appointment_status_and_update_counter, if_neg (not_not_intro hchoice),
    hlook, if_pos hne, adjust_appointment_counter, save, List.map_map]
  refine congrArg (fun l => (l, true, "Appointment status updated to " ++ st ++ " successfully.")) ?_
  apply List.map_congr_left
  intro a _
  by_cases hid : a.id = appt.id
  · simp only [Function.comp, if_pos hid, adjust_filter, hbne]
    simp
  · simp [Function.comp, hid, sub_eq_add_neg]

/-- Claim C10 witness: re-cancelling an already-cancelled appointment with
counter 1 succeeds again and drags the counter of the active appointment with
counter 2 down to 1. -/
theorem c10_repeat_cancel_witness :
    set_appointment_status_and_update_counter 1 "cancel" 9 true
        [mk_unscheduled 1 1 1 1 "cancel" 1, mk_unscheduled 2 1 1 2 "active" 2] =
      ([{ mk_unscheduled 1 1 1 1 "cancel" 1 with updated_by := some 9 },
        mk_unscheduled 2 1 1 2 "active" 1], true,
       "Appointment status updated to cancel successfully.") := by
  rw [c10_status_change_renumbers_again
    [mk_unscheduled 1 1 1 1 "cancel" 1, mk_unscheduled 2 1 1 2 "active" 2]
    1 "cancel" 9 (mk_unscheduled 1 1 1 1 "cancel" 1) rfl (Or.inl rfl) (Or.inl rfl) rfl]
  decide

end Sqip
